import Mathlib

/-!
Shallow embedding of `src/create_gcp_vm_instance.py` (class `AcquireGpu`).

The external GCP compute API is modelled by an `Env` record: catalog listings,
region quota snapshots, machine-type existence probes, and the results of the
mutating create/start operations, each of which may fail with an exception
message (`Except String _`).  Every embedded method additionally returns the
list of API calls it issues, so that call-count/call-absence properties of the
spec can be stated.  Python's `sys.exit(1)` is modelled by an explicit
`exited`/`fatal` constructor that carries the internal trace at the moment of
termination.
-/

/-- One entry of a region quota snapshot: `quota.metric`, `quota.usage`,
`quota.limit` as read by the Python code. -/
structure Quota where
  metric : String
  usage : Nat
  limit : Nat
deriving Repr, DecidableEq

/-- One access configuration of a network interface (`access_config.name`,
`access_config.nat_i_p`). -/
structure AccessConfig where
  name : String
  nat_i_p : String
deriving Repr, DecidableEq

/-- One network interface of an instance descriptor. -/
structure NetworkInterface where
  access_configs : List AccessConfig
deriving Repr, DecidableEq

/-- The GCP API calls the embedded code can issue.  `deleteVm` carries the
(possibly absent) instance name taken from the attempt record. -/
inductive ApiCall where
  | listZones
  | listAccel (zone : String)
  | getRegion (region : String)
  | getMachine (zone : String) (machine_type : String)
  | createVm (zone : String) (instance_name : String) (machine_type : String)
  | startVm (zone : String) (instance_name : String)
  | getInstanceCall (zone : String) (instance_name : String)
  | deleteVm (zone : String) (instance_name : Option String)
deriving Repr, DecidableEq

/-- Constructor-time configuration of `AcquireGpu.__init__`. -/
structure AcquireGpu where
  project_id : String
  vm_name : String
  gpu_type : String
  gpu_quota_name : String
  gpu_count : Nat
  machine_types : List String
  disk_source_image : String
  disk_size : Nat

/-- The external world seen by one run: the provider's zone list, the
read-only catalog/quota API, the mutating provisioning API, and the clocks.
`listZonesError` is the exception raised by the unguarded
`ZonesClient().list` call of line 241 (`none`: the call yields `zones`);
`instanceGet` is the unguarded `client.get` of line 451, which either raises
or yields the instance's network interfaces — both calls have no exception
handler in the source, so their errors crash the run.  `now_local` is the
formatted timestamp returned by Python's local-time `datetime.datetime.now()`;
`now_utc` is the formatted UTC clock at the same moment (read by nothing in
the source — it exists so that the spec's claim about UTC-derived names can
be stated and compared). -/
structure Env where
  zones : List String
  listZonesError : Option String
  accel : String → Except String (List String)
  quotas : String → Except String (List Quota)
  machineGet : String → String → Except String Unit
  createResult : String → String → String → Except String Unit
  startResult : String → String → Except String Unit
  instanceGet : String → String → Except String (List NetworkInterface)
  now_local : String
  now_utc : String
  elapsed : String → Nat

/-- The per-zone attempt record (the dictionary built by
`attempt_gpu_allocation`, with `time_to_complete_sec` added by `scan_zones`). -/
structure ZoneResult where
  region : String
  zone : String
  instance_name : Option String
  gpu_type : String
  machine_type : Option String
  is_available : Bool
  gpu_allocated : Bool
  gpu_reason : String
  external_ip : Option String
  time_to_complete_sec : Nat
deriving Repr, DecidableEq

/-- Return value of `create_single_vm`. -/
structure VmDict where
  region : String
  zone : String
  instance_name : String
  gpu_reason : String
deriving Repr, DecidableEq

/-- Result of `scan_zones`: the trace is returned to the caller, or the
process terminated via `sys.exit code` with the given internal trace, or an
uncaught exception (the unguarded zone listing at line 241, or the unguarded
instance re-read reached through line 213) crashed the scan, with the trace
accumulated up to that point. -/
inductive ScanResult where
  | returned (trace : List ZoneResult)
  | exited (code : Nat) (trace : List ZoneResult)
  | crashed (msg : String) (trace : List ZoneResult)
deriving Repr, DecidableEq

/-- Result of `allocate_gpus`: the returned `allocated_vms` list, a fatal
`sys.exit code` (from `scan_zones` or from the zero-success branch) with the
scan trace known at that point, or an uncaught exception propagated out of
the scan. -/
inductive RunResult where
  | success (allocated_vms : List ZoneResult)
  | fatal (code : Nat) (trace : List ZoneResult)
  | crashed (msg : String) (trace : List ZoneResult)
deriving Repr, DecidableEq

/-- Embedding of Python's `s.split(sep)` for a one-character separator, over
the character list of the string.  `"".split(sep)` is `[""]`, matching Python. -/
def pySplitOnChar (sep : Char) : List Char → List (List Char)
  | [] => [[]]
  | c :: cs =>
    match pySplitOnChar sep cs with
    | [] => [[]]
    | h :: t => if c = sep then [] :: h :: t else (c :: h) :: t

/-- Embedding of Python's `sep.join(parts)` for the one-character separator
used by the source (`"-"`). -/
def pyJoinDash : List (List Char) → List Char
  | [] => []
  | [x] => x
  | x :: y :: rest => x ++ '-' :: pyJoinDash (y :: rest)

/-- Embedding of the region derivation used throughout the source:
`"-".join(zone_name.split("-")[:-1])`. -/
def regionOfZone (zone_name : String) : String :=
  String.mk (pyJoinDash ((pySplitOnChar '-' zone_name.data).dropLast))

/-- Embedding of `str(e).split(":")[:1][0]`: the first segment of an
exception message, up to (excluding) the first colon. -/
def firstColonSegment (s : String) : String :=
  String.mk ((pySplitOnChar ':' s.data).headD [])

/-- Embedding of the instance-name derivation of `attempt_gpu_allocation`
(lines 205-206): the configured base name, a hyphen, and the formatted result
of the local-clock `datetime.datetime.now()` call. -/
def instName (cfg : AcquireGpu) (env : Env) : String :=
  cfg.vm_name ++ "-" ++ env.now_local

/-- Embedding of `AcquireGpu.is_gpu_available` (lines 90-129), additionally
reporting the API calls issued.  Any exception from the catalog listing or the
quota fetch is caught and yields `false`. -/
def is_gpu_available (cfg : AcquireGpu) (env : Env) (zone_name : String) :
    Bool × List ApiCall :=
  match env.accel zone_name with
  | .error _ => (false, [ApiCall.listAccel zone_name])
  | .ok gpu_response =>
    if !(gpu_response.any (fun gpu => gpu == cfg.gpu_type)) then
      (false, [ApiCall.listAccel zone_name])
    else
      match env.quotas (regionOfZone zone_name) with
      | .error _ =>
        (false, [ApiCall.listAccel zone_name, ApiCall.getRegion (regionOfZone zone_name)])
      | .ok region_quotas =>
        match region_quotas.find? (fun quota => quota.metric == cfg.gpu_quota_name) with
        | some quota =>
          (decide (quota.usage < quota.limit),
           [ApiCall.listAccel zone_name, ApiCall.getRegion (regionOfZone zone_name)])
        | none =>
          (false, [ApiCall.listAccel zone_name, ApiCall.getRegion (regionOfZone zone_name)])

/-- Loop body of `AcquireGpu.is_machine_available` (lines 145-169): iterate
the configured machine types in order; a per-shape exception (existence probe
or quota fetch) is caught and the next candidate is tried. -/
def is_machine_available_go (cfg : AcquireGpu) (env : Env) (zone_name : String) :
    List String → Option String × List ApiCall
  | [] => (none, [])
  | machine_type :: rest =>
    match env.machineGet zone_name machine_type with
    | .error _ =>
      ((is_machine_available_go cfg env zone_name rest).1,
       ApiCall.getMachine zone_name machine_type ::
         (is_machine_available_go cfg env zone_name rest).2)
    | .ok _ =>
      match env.quotas (regionOfZone zone_name) with
      | .error _ =>
        ((is_machine_available_go cfg env zone_name rest).1,
         ApiCall.getMachine zone_name machine_type ::
           ApiCall.getRegion (regionOfZone zone_name) ::
             (is_machine_available_go cfg env zone_name rest).2)
      | .ok region_quotas =>
        if region_quotas.any
            (fun quota => quota.metric == "CPUS" && decide (quota.usage < quota.limit)) then
          (some machine_type,
           [ApiCall.getMachine zone_name machine_type,
            ApiCall.getRegion (regionOfZone zone_name)])
        else
          ((is_machine_available_go cfg env zone_name rest).1,
           ApiCall.getMachine zone_name machine_type ::
             ApiCall.getRegion (regionOfZone zone_name) ::
               (is_machine_available_go cfg env zone_name rest).2)

/-- Embedding of `AcquireGpu.is_machine_available` (lines 131-169). -/
def is_machine_available (cfg : AcquireGpu) (env : Env) (zone_name : String) :
    Option String × List ApiCall :=
  is_machine_available_go cfg env zone_name cfg.machine_types

/-- The status string computed by the try/except of `create_single_vm`
(lines 72-81): on an exception the first colon-separated segment of the
message, otherwise the literal status SUCCESS. -/
def createStatus (env : Env) (zone_name instance_name machine_type : String) : String :=
  match env.createResult zone_name instance_name machine_type with
  | .ok _ => "SUCCESS"
  | .error e => firstColonSegment e

/-- Embedding of `AcquireGpu.create_single_vm` (lines 56-88). -/
def create_single_vm (cfg : AcquireGpu) (env : Env)
    (region zone_name instance_name machine_type : String) :
    VmDict × List ApiCall :=
  ({ region := region, zone := zone_name, instance_name := instance_name,
     gpu_reason := createStatus env zone_name instance_name machine_type },
   [ApiCall.createVm zone_name instance_name machine_type])

/-- The value returned by `start_vm_instance` (line 366): the instance name
when the start operation reached its terminal result, otherwise `None`. -/
def startedName (env : Env) (zone_name instance_name : String) : Option String :=
  match env.startResult zone_name instance_name with
  | .ok _ => some instance_name
  | .error _ => none

/-- Embedding of `AcquireGpu.start_vm_instance` (lines 345-366): a start
failure is caught and converted to `none`. -/
def start_vm_instance (cfg : AcquireGpu) (env : Env)
    (zone_name instance_name : String) : Option String × List ApiCall :=
  (startedName env zone_name instance_name, [ApiCall.startVm zone_name instance_name])

/-- The address lookup of `get_vm_external_ip` (lines 452-456): scan the
interfaces' access configurations, in order, for the one named External NAT. -/
def externalIpOf (interfaces : List NetworkInterface) : Option String :=
  (interfaces.flatMap (fun interface => interface.access_configs)).find?
    (fun access_config => access_config.name == "External NAT")
  |>.map (fun access_config => access_config.nat_i_p)

/-- Embedding of `AcquireGpu.get_vm_external_ip` (lines 438-456).  The
`client.get` of line 451 has no exception handler: an API error there
propagates to the caller (`.error`), after the call has been issued. -/
def get_vm_external_ip (cfg : AcquireGpu) (env : Env)
    (project_id zone instance_name : String) :
    Except String (Option String) × List ApiCall :=
  (match env.instanceGet zone instance_name with
   | .error e => .error e
   | .ok interfaces => .ok (externalIpOf interfaces),
   [ApiCall.getInstanceCall zone instance_name])

/-- The machine-type lookup of `attempt_gpu_allocation` (lines 200-202):
`is_machine_available` is consulted only when the GPU probe was positive. -/
def attempt_machine_probe (cfg : AcquireGpu) (env : Env) (zone_name : String)
    (gpu_available : Bool) : Option String × List ApiCall :=
  if gpu_available then is_machine_available cfg env zone_name else (none, [])

/-- The attempt record built when no machine shape was selected for the zone
(lines 193-198 and 217-230 with `found_gpu` false). -/
def unavailableRecord (cfg : AcquireGpu) (zone_name : String) : ZoneResult :=
  { region := regionOfZone zone_name, zone := zone_name, instance_name := none,
    gpu_type := cfg.gpu_type, machine_type := none, is_available := false,
    gpu_allocated := false, gpu_reason := "UNAVAILABLE", external_ip := none,
    time_to_complete_sec := 0 }

/-- Embedding of `AcquireGpu.attempt_gpu_allocation` (lines 171-230),
returning the `(gpu_allocated, record)` pair together with the API calls
issued.  Note the source fetches the external IP (line 213) whenever the
recorded creation status is SUCCESS, regardless of whether the start
succeeded; that fetch has no exception handler, so an error there propagates
out of the attempt (`.error`), after create, start and the instance re-read
have all been issued. -/
def attempt_gpu_allocation (cfg : AcquireGpu) (env : Env) (region : String)
    (zone_name : String) (gpu_available : Bool) :
    Except String (Bool × ZoneResult) × List ApiCall :=
  match attempt_machine_probe cfg env zone_name gpu_available with
  | (none, mcalls) => (.ok (false, unavailableRecord cfg zone_name), mcalls)
  | (some machine_type, mcalls) =>
    if createStatus env zone_name (instName cfg env) machine_type == "SUCCESS" then
      (match (get_vm_external_ip cfg env cfg.project_id zone_name (instName cfg env)).1 with
       | .error e => .error e
       | .ok external_ip =>
         .ok ((startedName env zone_name (instName cfg env)).isSome,
           { region := regionOfZone zone_name, zone := zone_name,
             instance_name := some (instName cfg env), gpu_type := cfg.gpu_type,
             machine_type := some machine_type, is_available := true,
             gpu_allocated := (startedName env zone_name (instName cfg env)).isSome,
             gpu_reason := "SUCCESS", external_ip := external_ip,
             time_to_complete_sec := 0 }),
       mcalls ++
         (create_single_vm cfg env region zone_name (instName cfg env) machine_type).2 ++
         (start_vm_instance cfg env zone_name (instName cfg env)).2 ++
         (get_vm_external_ip cfg env cfg.project_id zone_name (instName cfg env)).2)
    else
      (.ok (false,
        { region := regionOfZone zone_name, zone := zone_name,
          instance_name := some (instName cfg env), gpu_type := cfg.gpu_type,
          machine_type := some machine_type, is_available := true,
          gpu_allocated := false,
          gpu_reason := createStatus env zone_name (instName cfg env) machine_type,
          external_ip := none, time_to_complete_sec := 0 }),
       mcalls ++
         (create_single_vm cfg env region zone_name (instName cfg env) machine_type).2)

/-- One iteration of the `scan_zones` loop (lines 248-268): GPU probe, then
the allocation attempt, then the elapsed-time field.  An exception raised
inside the attempt (the unguarded instance re-read) propagates. -/
def scan_zone_step (cfg : AcquireGpu) (env : Env) (zone_name : String) :
    Except String (Bool × ZoneResult) × List ApiCall :=
  (match (attempt_gpu_allocation cfg env (regionOfZone zone_name) zone_name
            (is_gpu_available cfg env zone_name).1).1 with
   | .error e => .error e
   | .ok t => .ok (t.1, { t.2 with time_to_complete_sec := env.elapsed zone_name }),
   (is_gpu_available cfg env zone_name).2 ++
     (attempt_gpu_allocation cfg env (regionOfZone zone_name) zone_name
       (is_gpu_available cfg env zone_name).1).2)

/-- The `scan_zones` loop with its accumulated trace and call log, including
the post-loop zero-success `sys.exit(1)` (lines 248-275).  An exception from
a zone's step is uncaught and crashes the scan. -/
def scan_zones_go (cfg : AcquireGpu) (env : Env) :
    List String → List ZoneResult → List ApiCall → ScanResult × List ApiCall
  | [], acc, calls =>
    if acc.any (fun zr => zr.gpu_allocated) then (.returned acc, calls)
    else (.exited 1 acc, calls)
  | zone :: rest, acc, calls =>
    match (scan_zone_step cfg env zone).1 with
    | .error e => (.crashed e acc, calls ++ (scan_zone_step cfg env zone).2)
    | .ok t =>
      if t.1 then
        (.returned (acc ++ [t.2]), calls ++ (scan_zone_step cfg env zone).2)
      else
        scan_zones_go cfg env rest (acc ++ [t.2])
          (calls ++ (scan_zone_step cfg env zone).2)

/-- Embedding of `AcquireGpu.scan_zones` (lines 232-275).  The unguarded
`ZonesClient().list` of line 241 either yields the zone list or raises,
crashing the run before any zone is probed. -/
def scan_zones (cfg : AcquireGpu) (env : Env) : ScanResult × List ApiCall :=
  match env.listZonesError with
  | some e => (.crashed e [], [ApiCall.listZones])
  | none => scan_zones_go cfg env env.zones [] [ApiCall.listZones]

/-- Embedding of `AcquireGpu.delete_vm_instances` (lines 368-405): one delete
call per listed VM; per-delete failures are caught and only logged, so the
function's only observable effect is the issued calls. -/
def delete_vm_instances (cfg : AcquireGpu) (env : Env)
    (instantiated_vms : List ZoneResult) : List ApiCall :=
  instantiated_vms.map (fun vm => ApiCall.deleteVm vm.zone vm.instance_name)

/-- The post-scan coordination of `allocate_gpus` (lines 420-436) as a
function of the scan trace: partition off the successes, delete the surplus
ones, and either return the successes or terminate with failure status. -/
def allocate_gpus_post (cfg : AcquireGpu) (env : Env)
    (scanned_zones : List ZoneResult) : RunResult × List ApiCall :=
  let allocated_vms := scanned_zones.filter (fun vm => vm.gpu_allocated)
  let vms_to_delete := if allocated_vms.length > 1 then allocated_vms.drop 1 else []
  let dcalls := delete_vm_instances cfg env vms_to_delete
  if allocated_vms.isEmpty then (.fatal 1 scanned_zones, dcalls)
  else (.success allocated_vms, dcalls)

/-- Embedding of `AcquireGpu.allocate_gpus` (lines 407-436).  When
`scan_zones` terminated the process — deliberately or by an uncaught
exception — the whole run is already over. -/
def allocate_gpus (cfg : AcquireGpu) (env : Env) : RunResult × List ApiCall :=
  match scan_zones cfg env with
  | (.crashed msg trace, calls) => (.crashed msg trace, calls)
  | (.exited code trace, calls) => (.fatal code trace, calls)
  | (.returned trace, calls) =>
    ((allocate_gpus_post cfg env trace).1,
     calls ++ (allocate_gpus_post cfg env trace).2)

/-- The scan trace of a run, whether the scan returned it or terminated
the process while holding it. -/
def runTrace (cfg : AcquireGpu) (env : Env) : List ZoneResult :=
  match (scan_zones cfg env).1 with
  | .returned trace => trace
  | .exited _ trace => trace
  | .crashed _ trace => trace

/-- Whether one zone's step completed without an uncaught exception. -/
def zoneOk (cfg : AcquireGpu) (env : Env) (zone_name : String) : Bool :=
  match (scan_zone_step cfg env zone_name).1 with
  | .ok _ => true
  | .error _ => false

/-- Whether one zone allocates (the boolean `gpu_allocated` computed by the
loop body of `scan_zones` for that zone); false for a crashing step, which
never produces a positive result. -/
def zoneAlloc (cfg : AcquireGpu) (env : Env) (zone_name : String) : Bool :=
  match (scan_zone_step cfg env zone_name).1 with
  | .ok t => t.1
  | .error _ => false

/-- The attempt record the scan loop appends for one zone.  For a crashing
step — which appends nothing — an inert placeholder with `gpu_allocated`
false; the scan-shape lemmas only ever evaluate this function at zones whose
step completed. -/
def zoneRecord (cfg : AcquireGpu) (env : Env) (zone_name : String) : ZoneResult :=
  match (scan_zone_step cfg env zone_name).1 with
  | .ok t => t.2
  | .error _ => unavailableRecord cfg zone_name

/-- Whether an API call is an instance deletion. -/
def isDeleteCall : ApiCall → Bool
  | .deleteVm _ _ => true
  | _ => false

/-- A zone qualifies when the GPU probe is positive (accelerator present and
within quota) and some candidate machine shape is available there. -/
def zoneQualifies (cfg : AcquireGpu) (env : Env) (zone_name : String) : Bool :=
  (is_gpu_available cfg env zone_name).1 &&
    ((is_machine_available cfg env zone_name).1).isSome

/-- Concrete configuration used by the witnesses. -/
def cfg0 : AcquireGpu :=
  { project_id := "proj", vm_name := "gpu-vm", gpu_type := "nvidia-tesla-t4",
    gpu_quota_name := "NVIDIA_TESLA_T4_GPUS", gpu_count := 1,
    machine_types := ["n1-standard-4"], disk_source_image := "img", disk_size := 50 }

/-- Concrete environment: two zones, of which only the second qualifies, and
every provisioning operation succeeds. -/
def envOne : Env :=
  { zones := ["r1-a", "r2-a"]
    listZonesError := none
    accel := fun z => if z == "r2-a" then .ok ["nvidia-tesla-t4"] else .ok ["tpu-v5"]
    quotas := fun r =>
      if r == "r2" then .ok [⟨"NVIDIA_TESLA_T4_GPUS", 1, 4⟩, ⟨"CPUS", 2, 8⟩] else .ok []
    machineGet := fun z mt =>
      if z == "r2-a" && mt == "n1-standard-4" then .ok () else .error "404: not found"
    createResult := fun _ _ _ => .ok ()
    startResult := fun _ _ => .ok ()
    instanceGet := fun _ _ => .ok [⟨[⟨"External NAT", "1.2.3.4"⟩]⟩]
    now_local := "2026-03-01-00-00-00"
    now_utc := "2026-03-01-08-00-00"
    elapsed := fun _ => 0 }

/-- Concrete environment: like `envOne` but the start operation fails, so the
created instance never runs. -/
def envStartFail : Env :=
  { envOne with startResult := fun _ _ => .error "503: start failed" }

/-- Concrete environment: like `envOne` but the creation operation raises. -/
def envCreateFail : Env :=
  { envOne with createResult := fun _ _ _ => .error "QUOTA_EXCEEDED: too many requests" }

/-- Concrete environment: like `envOne` but no zone lists the configured
accelerator, so no zone qualifies. -/
def envNoGpu : Env :=
  { envOne with accel := fun _ => .ok ["tpu-v5"] }

/-- Concrete environment: like `envOne` but the unguarded instance re-read
raises, so the run crashes right after the qualifying zone's provisioning. -/
def envFetchCrash : Env :=
  { envOne with instanceGet := fun _ _ => .error "503: backend unavailable" }

/-- The attempt record produced for the non-qualifying zone of `envOne`. -/
def zrUnavailable : ZoneResult :=
  { region := "r1", zone := "r1-a", instance_name := none,
    gpu_type := "nvidia-tesla-t4", machine_type := none, is_available := false,
    gpu_allocated := false, gpu_reason := "UNAVAILABLE", external_ip := none,
    time_to_complete_sec := 0 }

/-- The successful attempt record produced for the qualifying zone of
`envOne`. -/
def zrSuccess : ZoneResult :=
  { region := "r2", zone := "r2-a", instance_name := some "gpu-vm-2026-03-01-00-00-00",
    gpu_type := "nvidia-tesla-t4", machine_type := some "n1-standard-4",
    is_available := true, gpu_allocated := true, gpu_reason := "SUCCESS",
    external_ip := some "1.2.3.4", time_to_complete_sec := 0 }

/-- The created-but-never-started record produced for the qualifying zone of
`envStartFail`: creation succeeded, the start failed, so the instance exists
but the attempt is not an allocation. -/
def zrStartFail : ZoneResult :=
  { region := "r2", zone := "r2-a", instance_name := some "gpu-vm-2026-03-01-00-00-00",
    gpu_type := "nvidia-tesla-t4", machine_type := some "n1-standard-4",
    is_available := true, gpu_allocated := false, gpu_reason := "SUCCESS",
    external_ip := some "1.2.3.4", time_to_complete_sec := 0 }

/-- The attempt record produced for the qualifying zone of `envCreateFail`:
the creation exception's pre-colon prefix is the recorded reason. -/
def zrCreateFail : ZoneResult :=
  { region := "r2", zone := "r2-a", instance_name := some "gpu-vm-2026-03-01-00-00-00",
    gpu_type := "nvidia-tesla-t4", machine_type := some "n1-standard-4",
    is_available := true, gpu_allocated := false, gpu_reason := "QUOTA_EXCEEDED",
    external_ip := none, time_to_complete_sec := 0 }

/-- A hypothetical success record for a first zone, as would arise if the
scanner's short-circuit were bypassed. -/
def zrSuccessA : ZoneResult :=
  { region := "r1", zone := "r1-a", instance_name := some "gpu-vm-a",
    gpu_type := "nvidia-tesla-t4", machine_type := some "n1-standard-4",
    is_available := true, gpu_allocated := true, gpu_reason := "SUCCESS",
    external_ip := some "1.1.1.1", time_to_complete_sec := 0 }

/-- A hypothetical second success record, after `zrSuccessA` in trace order. -/
def zrSuccessB : ZoneResult :=
  { region := "r2", zone := "r2-a", instance_name := some "gpu-vm-b",
    gpu_type := "nvidia-tesla-t4", machine_type := some "n1-standard-4",
    is_available := true, gpu_allocated := true, gpu_reason := "SUCCESS",
    external_ip := some "2.2.2.2", time_to_complete_sec := 0 }

/-- A scan trace holding two success records, as the coordinator's defensive
branch expects from a hypothetical parallel scanner. -/
def twoSuccessTrace : List ZoneResult := [zrUnavailable, zrSuccessA, zrSuccessB]

/-- Modelled from the spec's words (section 4.1, CheckMachine): a candidate
shape qualifies in a zone when it exists there and the zone's region has a
CPUS quota entry with usage strictly below its limit.  Stated independently
of the source loop, for comparison with `is_machine_available`. -/
def machineAvailableSpec (cfg : AcquireGpu) (env : Env)
    (zone_name machine_type : String) : Bool :=
  (match env.machineGet zone_name machine_type with
   | .ok _ => true
   | .error _ => false) &&
  (match env.quotas (regionOfZone zone_name) with
   | .ok region_quotas =>
     region_quotas.any
       (fun quota => quota.metric == "CPUS" && decide (quota.usage < quota.limit))
   | .error _ => false)

/-- The split of a character list is never the empty list of parts. -/
theorem pySplitOnChar_ne_nil (sep : Char) : ∀ l : List Char, pySplitOnChar sep l ≠ []
  | [] => by simp [pySplitOnChar]
  | c :: cs => by
    simp only [pySplitOnChar]
    rcases h : pySplitOnChar sep cs with _ | ⟨hd, tl⟩
    · simp
    · split
      · simp
      · split <;> simp

/-- The first part of the split is the longest separator-free prefix. -/
theorem pySplitOnChar_headD (sep : Char) :
    ∀ l : List Char, (pySplitOnChar sep l).headD [] = l.takeWhile (fun c => c != sep)
  | [] => by simp [pySplitOnChar]
  | c :: cs => by
    have ih := pySplitOnChar_headD sep cs
    simp only [pySplitOnChar]
    rcases h : pySplitOnChar sep cs with _ | ⟨hd, tl⟩
    · exact absurd h (pySplitOnChar_ne_nil sep cs)
    · rw [h] at ih
      simp only [List.headD_cons] at ih
      by_cases hc : c = sep
      · simp [hc, List.takeWhile_cons]
      · simp [hc, List.takeWhile_cons, ih]

/-- The first colon-separated segment of a message is its prefix up to the
first colon. -/
theorem firstColonSegment_eq_takeWhile (s : String) :
    firstColonSegment s = String.mk (s.data.takeWhile (fun c => c != ':')) := by
  simp only [firstColonSegment]
  rw [pySplitOnChar_headD]

/-- A positive machine probe implies the GPU probe was positive and
`is_machine_available` itself returned that shape. -/
theorem attempt_machine_probe_some (cfg : AcquireGpu) (env : Env) (zone_name : String)
    (gpu_available : Bool) (mt : String) (mcalls : List ApiCall)
    (h : attempt_machine_probe cfg env zone_name gpu_available = (some mt, mcalls)) :
    gpu_available = true ∧ (is_machine_available cfg env zone_name).1 = some mt := by
  cases gpu_available with
  | false => simp [attempt_machine_probe] at h
  | true =>
    refine ⟨rfl, ?_⟩
    simp only [attempt_machine_probe, if_true] at h
    rw [h]


/-- Outcome equation of the attempt when no machine shape was selected. -/
theorem attempt_eq_none (cfg : AcquireGpu) (env : Env) (region zone_name : String)
    (gav : Bool) (mcalls : List ApiCall)
    (hp : attempt_machine_probe cfg env zone_name gav = (none, mcalls)) :
    attempt_gpu_allocation cfg env region zone_name gav =
      (.ok (false, unavailableRecord cfg zone_name), mcalls) := by
  unfold attempt_gpu_allocation
  rw [hp]

/-- Outcome equation of the attempt when a shape was found but the recorded
creation status is not SUCCESS. -/
theorem attempt_eq_fail (cfg : AcquireGpu) (env : Env) (region zone_name : String)
    (gav : Bool) (m : String) (mcalls : List ApiCall)
    (hp : attempt_machine_probe cfg env zone_name gav = (some m, mcalls))
    (hsc : ¬ createStatus env zone_name (instName cfg env) m = "SUCCESS") :
    attempt_gpu_allocation cfg env region zone_name gav =
      (.ok (false,
        { region := regionOfZone zone_name, zone := zone_name,
          instance_name := some (instName cfg env), gpu_type := cfg.gpu_type,
          machine_type := some m, is_available := true, gpu_allocated := false,
          gpu_reason := createStatus env zone_name (instName cfg env) m,
          external_ip := none, time_to_complete_sec := 0 }),
       mcalls ++
         (create_single_vm cfg env region zone_name (instName cfg env) m).2) := by
  unfold attempt_gpu_allocation
  rw [hp]
  simp [hsc]

/-- Outcome equation of the attempt when the creation status is SUCCESS and
the unguarded instance re-read raises: the exception propagates, after the
create, start and re-read calls have been issued. -/
theorem attempt_eq_crash (cfg : AcquireGpu) (env : Env) (region zone_name : String)
    (gav : Bool) (m : String) (mcalls : List ApiCall) (e : String)
    (hp : attempt_machine_probe cfg env zone_name gav = (some m, mcalls))
    (hsc : createStatus env zone_name (instName cfg env) m = "SUCCESS")
    (hf : (get_vm_external_ip cfg env cfg.project_id zone_name (instName cfg env)).1 =
      .error e) :
    attempt_gpu_allocation cfg env region zone_name gav =
      (.error e,
       mcalls ++
         (create_single_vm cfg env region zone_name (instName cfg env) m).2 ++
         (start_vm_instance cfg env zone_name (instName cfg env)).2 ++
         (get_vm_external_ip cfg env cfg.project_id zone_name (instName cfg env)).2) := by
  unfold attempt_gpu_allocation
  rw [hp]
  simp [hsc, hf]

/-- Outcome equation of the attempt on the full success path (creation status
SUCCESS, instance re-read answered). -/
theorem attempt_eq_success (cfg : AcquireGpu) (env : Env) (region zone_name : String)
    (gav : Bool) (m : String) (mcalls : List ApiCall) (ip : Option String)
    (hp : attempt_machine_probe cfg env zone_name gav = (some m, mcalls))
    (hsc : createStatus env zone_name (instName cfg env) m = "SUCCESS")
    (hf : (get_vm_external_ip cfg env cfg.project_id zone_name (instName cfg env)).1 =
      .ok ip) :
    attempt_gpu_allocation cfg env region zone_name gav =
      (.ok ((startedName env zone_name (instName cfg env)).isSome,
        { region := regionOfZone zone_name, zone := zone_name,
          instance_name := some (instName cfg env), gpu_type := cfg.gpu_type,
          machine_type := some m, is_available := true,
          gpu_allocated := (startedName env zone_name (instName cfg env)).isSome,
          gpu_reason := "SUCCESS", external_ip := ip, time_to_complete_sec := 0 }),
       mcalls ++
         (create_single_vm cfg env region zone_name (instName cfg env) m).2 ++
         (start_vm_instance cfg env zone_name (instName cfg env)).2 ++
         (get_vm_external_ip cfg env cfg.project_id zone_name (instName cfg env)).2) := by
  unfold attempt_gpu_allocation
  rw [hp]
  simp [hsc, hf]

/-- For every completed attempt outcome, the record carries the probed zone
and records exactly the returned `gpu_allocated` boolean. -/
theorem attempt_ok_fields (cfg : AcquireGpu) (env : Env) (region zone_name : String)
    (gav : Bool) (b : Bool) (rec : ZoneResult)
    (h : (attempt_gpu_allocation cfg env region zone_name gav).1 = .ok (b, rec)) :
    rec.zone = zone_name ∧ rec.gpu_allocated = b := by
  rcases hp : attempt_machine_probe cfg env zone_name gav with ⟨mt, mcalls⟩
  cases mt with
  | none =>
    rw [attempt_eq_none cfg env region zone_name gav mcalls hp] at h
    simp only [Except.ok.injEq, Prod.mk.injEq] at h
    obtain ⟨hb, hr⟩ := h
    subst hb
    subst hr
    exact ⟨rfl, rfl⟩
  | some m =>
    by_cases hsc : createStatus env zone_name (instName cfg env) m = "SUCCESS"
    · rcases hf : (get_vm_external_ip cfg env cfg.project_id zone_name
          (instName cfg env)).1 with e | ip
      · rw [attempt_eq_crash cfg env region zone_name gav m mcalls e hp hsc hf] at h
        simp at h
      · rw [attempt_eq_success cfg env region zone_name gav m mcalls ip hp hsc hf] at h
        simp only [Except.ok.injEq, Prod.mk.injEq] at h
        obtain ⟨hb, hr⟩ := h
        subst hb
        subst hr
        exact ⟨rfl, rfl⟩
    · rw [attempt_eq_fail cfg env region zone_name gav m mcalls hp hsc] at h
      simp only [Except.ok.injEq, Prod.mk.injEq] at h
      obtain ⟨hb, hr⟩ := h
      subst hb
      subst hr
      exact ⟨rfl, rfl⟩

/-- A positive attempt outcome presupposes a positive GPU probe and an
available machine shape. -/
theorem attempt_ok_true (cfg : AcquireGpu) (env : Env) (region zone_name : String)
    (gav : Bool) (rec : ZoneResult)
    (h : (attempt_gpu_allocation cfg env region zone_name gav).1 = .ok (true, rec)) :
    gav = true ∧ ((is_machine_available cfg env zone_name).1).isSome = true := by
  rcases hp : attempt_machine_probe cfg env zone_name gav with ⟨mt, mcalls⟩
  cases mt with
  | none =>
    rw [attempt_eq_none cfg env region zone_name gav mcalls hp] at h
    simp at h
  | some m =>
    obtain ⟨hgav, hsome⟩ := attempt_machine_probe_some cfg env zone_name gav m mcalls hp
    exact ⟨hgav, by rw [hsome]; rfl⟩

/-- Step equation: an attempt outcome yields the step outcome with the
elapsed-time field filled in. -/
theorem scan_zone_step_eq_ok (cfg : AcquireGpu) (env : Env) (zone_name : String)
    (b : Bool) (rec : ZoneResult)
    (h : (attempt_gpu_allocation cfg env (regionOfZone zone_name) zone_name
      (is_gpu_available cfg env zone_name).1).1 = .ok (b, rec)) :
    (scan_zone_step cfg env zone_name).1 =
      .ok (b, { rec with time_to_complete_sec := env.elapsed zone_name }) := by
  unfold scan_zone_step
  rw [h]

/-- Step equation: an attempt exception propagates through the step. -/
theorem scan_zone_step_eq_err (cfg : AcquireGpu) (env : Env) (zone_name : String)
    (e : String)
    (h : (attempt_gpu_allocation cfg env (regionOfZone zone_name) zone_name
      (is_gpu_available cfg env zone_name).1).1 = .error e) :
    (scan_zone_step cfg env zone_name).1 = .error e := by
  unfold scan_zone_step
  rw [h]

/-- Every completed step outcome comes from a completed attempt outcome. -/
theorem scan_zone_step_ok_inv (cfg : AcquireGpu) (env : Env) (zone_name : String)
    (t : Bool × ZoneResult)
    (h : (scan_zone_step cfg env zone_name).1 = .ok t) :
    ∃ b rec, (attempt_gpu_allocation cfg env (regionOfZone zone_name) zone_name
        (is_gpu_available cfg env zone_name).1).1 = .ok (b, rec) ∧
      t = (b, { rec with time_to_complete_sec := env.elapsed zone_name }) := by
  unfold scan_zone_step at h
  rcases ha : (attempt_gpu_allocation cfg env (regionOfZone zone_name) zone_name
      (is_gpu_available cfg env zone_name).1).1 with e | u
  · rw [ha] at h
    simp at h
  · rw [ha] at h
    rcases u with ⟨b, rec⟩
    refine ⟨b, rec, rfl, ?_⟩
    simp only [Except.ok.injEq] at h
    exact h.symm

/-- A step completes exactly when it yields some outcome pair. -/
theorem zoneOk_iff (cfg : AcquireGpu) (env : Env) (zone_name : String) :
    zoneOk cfg env zone_name = true ↔
      ∃ t, (scan_zone_step cfg env zone_name).1 = .ok t := by
  unfold zoneOk
  rcases hs : (scan_zone_step cfg env zone_name).1 with e | t <;> simp [hs]

/-- For a completed step, `zoneAlloc` is its boolean. -/
theorem zoneAlloc_of_ok (cfg : AcquireGpu) (env : Env) (zone_name : String)
    (t : Bool × ZoneResult)
    (h : (scan_zone_step cfg env zone_name).1 = .ok t) :
    zoneAlloc cfg env zone_name = t.1 := by
  unfold zoneAlloc
  rw [h]

/-- For a completed step, `zoneRecord` is its record. -/
theorem zoneRecord_of_ok (cfg : AcquireGpu) (env : Env) (zone_name : String)
    (t : Bool × ZoneResult)
    (h : (scan_zone_step cfg env zone_name).1 = .ok t) :
    zoneRecord cfg env zone_name = t.2 := by
  unfold zoneRecord
  rw [h]

/-- The record associated with each scanned zone carries that zone. -/
theorem zoneRecord_zone (cfg : AcquireGpu) (env : Env) (zone_name : String) :
    (zoneRecord cfg env zone_name).zone = zone_name := by
  unfold zoneRecord
  rcases hs : (scan_zone_step cfg env zone_name).1 with e | t
  · simp [unavailableRecord]
  · obtain ⟨b, rec, ha, ht⟩ := scan_zone_step_ok_inv cfg env zone_name t hs
    subst ht
    simp [(attempt_ok_fields cfg env (regionOfZone zone_name) zone_name
      (is_gpu_available cfg env zone_name).1 b rec ha).1]

/-- The record associated with each scanned zone records exactly the loop's
`gpu_allocated` boolean for that zone. -/
theorem zoneRecord_gpu_allocated (cfg : AcquireGpu) (env : Env) (zone_name : String) :
    (zoneRecord cfg env zone_name).gpu_allocated = zoneAlloc cfg env zone_name := by
  unfold zoneRecord zoneAlloc
  rcases hs : (scan_zone_step cfg env zone_name).1 with e | t
  · simp [unavailableRecord]
  · obtain ⟨b, rec, ha, ht⟩ := scan_zone_step_ok_inv cfg env zone_name t hs
    subst ht
    simp [(attempt_ok_fields cfg env (regionOfZone zone_name) zone_name
      (is_gpu_available cfg env zone_name).1 b rec ha).2]

/-- A zone that allocates necessarily qualifies: the GPU probe was positive
and some machine shape was available. -/
theorem zoneAlloc_qualifies (cfg : AcquireGpu) (env : Env) (zone_name : String)
    (h : zoneAlloc cfg env zone_name = true) :
    zoneQualifies cfg env zone_name = true := by
  unfold zoneAlloc at h
  rcases hs : (scan_zone_step cfg env zone_name).1 with e | t
  · rw [hs] at h
    simp at h
  · rw [hs] at h
    obtain ⟨b, rec, ha, ht⟩ := scan_zone_step_ok_inv cfg env zone_name t hs
    subst ht
    simp only at h
    subst h
    obtain ⟨hgav, hsome⟩ := attempt_ok_true cfg env (regionOfZone zone_name) zone_name
      (is_gpu_available cfg env zone_name).1 rec ha
    simp [zoneQualifies, hgav, hsome]

/-- A non-qualifying zone's step completes without allocating: the machine
probe selects nothing, so neither provisioning nor the unguarded instance
re-read is reached. -/
theorem zone_not_qualifies (cfg : AcquireGpu) (env : Env) (zone_name : String)
    (h : zoneQualifies cfg env zone_name = false) :
    zoneOk cfg env zone_name = true ∧ zoneAlloc cfg env zone_name = false := by
  have hprobe1 : (attempt_machine_probe cfg env zone_name
      (is_gpu_available cfg env zone_name).1).1 = none := by
    unfold attempt_machine_probe
    by_cases hg : (is_gpu_available cfg env zone_name).1 = true
    · rw [if_pos hg]
      unfold zoneQualifies at h
      rw [hg] at h
      simp only [Bool.true_and] at h
      exact Option.not_isSome_iff_eq_none.mp (by simp [h])
    · rw [if_neg hg]
  rcases hp : attempt_machine_probe cfg env zone_name
      (is_gpu_available cfg env zone_name).1 with ⟨mt, mcalls⟩
  have hmt : mt = none := by
    rw [hp] at hprobe1
    exact hprobe1
  subst hmt
  have ha := attempt_eq_none cfg env (regionOfZone zone_name) zone_name
    (is_gpu_available cfg env zone_name).1 mcalls hp
  have hstep := scan_zone_step_eq_ok cfg env zone_name false
    (unavailableRecord cfg zone_name) (by rw [ha])
  refine ⟨?_, ?_⟩
  · unfold zoneOk
    rw [hstep]
  · unfold zoneAlloc
    rw [hstep]

/-- Unfolding equation of the scan loop when the zone's step completed. -/
theorem scan_zones_go_cons_ok (cfg : AcquireGpu) (env : Env) (zone : String)
    (rest : List String) (acc : List ZoneResult) (calls : List ApiCall)
    (t : Bool × ZoneResult)
    (h : (scan_zone_step cfg env zone).1 = .ok t) :
    scan_zones_go cfg env (zone :: rest) acc calls =
      if t.1 then
        (.returned (acc ++ [t.2]), calls ++ (scan_zone_step cfg env zone).2)
      else
        scan_zones_go cfg env rest (acc ++ [t.2])
          (calls ++ (scan_zone_step cfg env zone).2) := by
  conv_lhs => unfold scan_zones_go
  rw [h]

/-- Unfolding equation of the scan loop when the zone's step raised. -/
theorem scan_zones_go_cons_err (cfg : AcquireGpu) (env : Env) (zone : String)
    (rest : List String) (acc : List ZoneResult) (calls : List ApiCall) (e : String)
    (h : (scan_zone_step cfg env zone).1 = .error e) :
    scan_zones_go cfg env (zone :: rest) acc calls =
      (.crashed e acc, calls ++ (scan_zone_step cfg env zone).2) := by
  conv_lhs => unfold scan_zones_go
  rw [h]

/-- When every remaining zone's step completes without allocating, the loop
visits every zone, appends every record, and terminates the process with
exit code 1. -/
theorem scan_zones_go_all_false (cfg : AcquireGpu) (env : Env) :
    ∀ (zs : List String) (acc : List ZoneResult) (calls : List ApiCall),
      (∀ z ∈ zs, zoneOk cfg env z = true) →
      (∀ z ∈ zs, zoneAlloc cfg env z = false) →
      acc.any (fun zr => zr.gpu_allocated) = false →
      (scan_zones_go cfg env zs acc calls).1 =
        .exited 1 (acc ++ zs.map (zoneRecord cfg env))
  | [], acc, calls, _, _, hacc => by simp [scan_zones_go, hacc]
  | z :: rest, acc, calls, hok, hzs, hacc => by
    obtain ⟨t, ht⟩ := (zoneOk_iff cfg env z).mp (hok z (by simp))
    have hz : zoneAlloc cfg env z = false := hzs z (by simp)
    have ht1 : t.1 = false := by
      rw [zoneAlloc_of_ok cfg env z t ht] at hz
      exact hz
    rw [scan_zones_go_cons_ok cfg env z rest acc calls t ht, if_neg (by simp [ht1])]
    have hrec : t.2 = zoneRecord cfg env z := (zoneRecord_of_ok cfg env z t ht).symm
    have ih := scan_zones_go_all_false cfg env rest (acc ++ [t.2])
      (calls ++ (scan_zone_step cfg env z).2)
      (fun z' hz' => hok z' (by simp [hz']))
      (fun z' hz' => hzs z' (by simp [hz']))
      (by simp [hacc, hrec, zoneRecord_gpu_allocated, hz])
    rw [ih, hrec]
    simp

/-- If the loop returned a trace, the zone list splits into a prefix of
non-allocating zones, followed by the allocating zone, and the trace is the
accumulated records of exactly those zones. -/
theorem scan_zones_go_returned (cfg : AcquireGpu) (env : Env) :
    ∀ (zs : List String) (acc : List ZoneResult) (calls : List ApiCall)
      (tr : List ZoneResult),
      acc.any (fun zr => zr.gpu_allocated) = false →
      (scan_zones_go cfg env zs acc calls).1 = .returned tr →
      ∃ pre zl post, zs = pre ++ zl :: post ∧
        (∀ z ∈ pre, zoneAlloc cfg env z = false) ∧
        zoneAlloc cfg env zl = true ∧
        tr = acc ++ pre.map (zoneRecord cfg env) ++ [zoneRecord cfg env zl]
  | [], acc, calls, tr, hacc, h => by simp [scan_zones_go, hacc] at h
  | z :: rest, acc, calls, tr, hacc, h => by
    rcases hs : (scan_zone_step cfg env z).1 with e | t
    · rw [scan_zones_go_cons_err cfg env z rest acc calls e hs] at h
      simp at h
    · rw [scan_zones_go_cons_ok cfg env z rest acc calls t hs] at h
      have halloc : zoneAlloc cfg env z = t.1 := zoneAlloc_of_ok cfg env z t hs
      have hrec : zoneRecord cfg env z = t.2 := zoneRecord_of_ok cfg env z t hs
      by_cases ht1 : t.1 = true
      · rw [if_pos ht1] at h
        simp only [ScanResult.returned.injEq] at h
        refine ⟨[], z, rest, by simp, by simp, by rw [halloc, ht1], ?_⟩
        simp [h, hrec]
      · have ht1f : t.1 = false := by
          cases hb : t.1
          · rfl
          · exact absurd hb ht1
        rw [if_neg ht1] at h
        obtain ⟨pre, zl, post, h1, h2, h3, h4⟩ :=
          scan_zones_go_returned cfg env rest (acc ++ [t.2]) _ tr
            (by simp [hacc, hrec.symm, zoneRecord_gpu_allocated, halloc, ht1f]) h
        refine ⟨z :: pre, zl, post, by simp [h1], ?_, h3, by simp [h4, hrec]⟩
        intro z' hz'
        rcases List.mem_cons.mp hz' with rfl | hmem
        · rw [halloc, ht1f]
        · exact h2 z' hmem

/-- If the loop terminated the process deliberately, the exit code is 1,
every zone was visited without allocating, and the trace holds every
record. -/
theorem scan_zones_go_exited (cfg : AcquireGpu) (env : Env) :
    ∀ (zs : List String) (acc : List ZoneResult) (calls : List ApiCall)
      (c : Nat) (tr : List ZoneResult),
      acc.any (fun zr => zr.gpu_allocated) = false →
      (scan_zones_go cfg env zs acc calls).1 = .exited c tr →
      c = 1 ∧ tr = acc ++ zs.map (zoneRecord cfg env) ∧
        ∀ z ∈ zs, zoneAlloc cfg env z = false
  | [], acc, calls, c, tr, hacc, h => by
    simp only [scan_zones_go, hacc] at h
    simp only [Bool.false_eq_true, if_false, ScanResult.exited.injEq] at h
    exact ⟨h.1.symm, by simp [h.2], by simp⟩
  | z :: rest, acc, calls, c, tr, hacc, h => by
    rcases hs : (scan_zone_step cfg env z).1 with e | t
    · rw [scan_zones_go_cons_err cfg env z rest acc calls e hs] at h
      simp at h
    · rw [scan_zones_go_cons_ok cfg env z rest acc calls t hs] at h
      have halloc : zoneAlloc cfg env z = t.1 := zoneAlloc_of_ok cfg env z t hs
      have hrec : zoneRecord cfg env z = t.2 := zoneRecord_of_ok cfg env z t hs
      by_cases ht1 : t.1 = true
      · rw [if_pos ht1] at h
        simp at h
      · have ht1f : t.1 = false := by
          cases hb : t.1
          · rfl
          · exact absurd hb ht1
        rw [if_neg ht1] at h
        obtain ⟨h1, h2, h3⟩ :=
          scan_zones_go_exited cfg env rest (acc ++ [t.2]) _ c tr
            (by simp [hacc, hrec.symm, zoneRecord_gpu_allocated, halloc, ht1f]) h
        refine ⟨h1, by simp [h2, hrec], ?_⟩
        intro z' hz'
        rcases List.mem_cons.mp hz' with rfl | hmem
        · rw [halloc, ht1f]
        · exact h3 z' hmem

/-- Every call issued by the GPU probe is the zone's catalog listing or its
region quota fetch. -/
theorem is_gpu_available_calls (cfg : AcquireGpu) (env : Env) (zone_name : String) :
    ∀ c ∈ (is_gpu_available cfg env zone_name).2,
      c = ApiCall.listAccel zone_name ∨ c = ApiCall.getRegion (regionOfZone zone_name) := by
  intro c hc
  unfold is_gpu_available at hc
  repeat' split at hc
  all_goals simp at hc
  all_goals tauto

/-- Every call issued by the machine scan is an existence probe or the
region quota fetch. -/
theorem is_machine_available_go_calls (cfg : AcquireGpu) (env : Env) (zone_name : String) :
    ∀ (ms : List String), ∀ c ∈ (is_machine_available_go cfg env zone_name ms).2,
      (∃ mt, c = ApiCall.getMachine zone_name mt) ∨
        c = ApiCall.getRegion (regionOfZone zone_name)
  | [] => by
    intro c hc
    simp [is_machine_available_go] at hc
  | m :: rest => by
    intro c hc
    have ih := is_machine_available_go_calls cfg env zone_name rest
    unfold is_machine_available_go at hc
    repeat' split at hc
    all_goals simp at hc
    all_goals rcases hc with rfl | hc
    all_goals try exact Or.inl ⟨m, rfl⟩
    all_goals try (rcases hc with rfl | hc)
    all_goals try exact Or.inr rfl
    all_goals try exact ih c hc

/-- The machine scan returns the first candidate shape (in configured order)
that exists in the zone and whose region has CPUS quota headroom; probing
errors only disqualify the shape they hit. -/
theorem is_machine_available_go_fst (cfg : AcquireGpu) (env : Env) (zone_name : String) :
    ∀ (ms : List String),
      (is_machine_available_go cfg env zone_name ms).1 =
        ms.find? (machineAvailableSpec cfg env zone_name)
  | [] => by simp [is_machine_available_go]
  | m :: rest => by
    have ih := is_machine_available_go_fst cfg env zone_name rest
    unfold is_machine_available_go
    rcases hmg : env.machineGet zone_name m with e | u
    · rw [List.find?_cons_of_neg _ (by simp [machineAvailableSpec, hmg])]
      exact ih
    · rcases hq : env.quotas (regionOfZone zone_name) with e | qs
      · rw [List.find?_cons_of_neg _ (by simp [machineAvailableSpec, hmg, hq])]
        exact ih
      · by_cases hany : qs.any
            (fun quota => quota.metric == "CPUS" && decide (quota.usage < quota.limit)) = true
        · rw [List.find?_cons_of_pos _ (by simp [machineAvailableSpec, hmg, hq, hany])]
          simp [hany]
        · rw [List.find?_cons_of_neg _ (by simp [machineAvailableSpec, hmg, hq, hany])]
          simp [hany, ih]

/-- Calls issued by the machine lookup of the attempt are probes only. -/
theorem attempt_machine_probe_calls (cfg : AcquireGpu) (env : Env) (zone_name : String)
    (gav : Bool) :
    ∀ c ∈ (attempt_machine_probe cfg env zone_name gav).2,
      (∃ mt, c = ApiCall.getMachine zone_name mt) ∨
        c = ApiCall.getRegion (regionOfZone zone_name) := by
  intro c hc
  cases gav with
  | false => simp [attempt_machine_probe] at hc
  | true =>
    simp only [attempt_machine_probe, if_true] at hc
    exact is_machine_available_go_calls cfg env zone_name cfg.machine_types c hc

/-- The allocation attempt never issues a delete call. -/
theorem attempt_calls_no_delete (cfg : AcquireGpu) (env : Env) (region zone_name : String)
    (gav : Bool) :
    ∀ c ∈ (attempt_gpu_allocation cfg env region zone_name gav).2,
      isDeleteCall c = false := by
  have hm : ∀ c ∈ (attempt_machine_probe cfg env zone_name gav).2,
      isDeleteCall c = false := by
    intro c hcm
    rcases attempt_machine_probe_calls cfg env zone_name gav c hcm with ⟨mt2, rfl⟩ | rfl <;>
      rfl
  intro c hc
  rcases hp : attempt_machine_probe cfg env zone_name gav with ⟨mt, mcalls⟩
  rw [hp] at hm
  simp only at hm
  cases mt with
  | none =>
    rw [attempt_eq_none cfg env region zone_name gav mcalls hp] at hc
    exact hm c hc
  | some m =>
    by_cases hsc : createStatus env zone_name (instName cfg env) m = "SUCCESS"
    · rcases hf : (get_vm_external_ip cfg env cfg.project_id zone_name
          (instName cfg env)).1 with e | ip
      · rw [attempt_eq_crash cfg env region zone_name gav m mcalls e hp hsc hf] at hc
        simp [create_single_vm, start_vm_instance, get_vm_external_ip] at hc
        rcases hc with hc | rfl | rfl | rfl
        · exact hm c hc
        all_goals rfl
      · rw [attempt_eq_success cfg env region zone_name gav m mcalls ip hp hsc hf] at hc
        simp [create_single_vm, start_vm_instance, get_vm_external_ip] at hc
        rcases hc with hc | rfl | rfl | rfl
        · exact hm c hc
        all_goals rfl
    · rw [attempt_eq_fail cfg env region zone_name gav m mcalls hp hsc] at hc
      simp [create_single_vm] at hc
      rcases hc with hc | rfl
      · exact hm c hc
      · rfl

/-- One scan iteration never issues a delete call. -/
theorem scan_zone_step_calls_no_delete (cfg : AcquireGpu) (env : Env) (zone_name : String) :
    ∀ c ∈ (scan_zone_step cfg env zone_name).2, isDeleteCall c = false := by
  intro c hc
  rcases List.mem_append.mp hc with h | h
  · have := is_gpu_available_calls cfg env zone_name c h
    rcases this with rfl | rfl <;> rfl
  · exact attempt_calls_no_delete cfg env (regionOfZone zone_name) zone_name _ c h

/-- The whole scan loop never issues a delete call. -/
theorem scan_zones_go_calls_no_delete (cfg : AcquireGpu) (env : Env) :
    ∀ (zs : List String) (acc : List ZoneResult) (calls : List ApiCall),
      (∀ c ∈ calls, isDeleteCall c = false) →
      ∀ c ∈ (scan_zones_go cfg env zs acc calls).2, isDeleteCall c = false
  | [], acc, calls, hcalls => by
    intro c hc
    simp only [scan_zones_go] at hc
    split at hc <;> exact hcalls c hc
  | z :: rest, acc, calls, hcalls => by
    intro c hc
    have hstep := scan_zone_step_calls_no_delete cfg env z
    have hboth : ∀ c' ∈ calls ++ (scan_zone_step cfg env z).2, isDeleteCall c' = false := by
      intro c' hc'
      rcases List.mem_append.mp hc' with h | h
      · exact hcalls c' h
      · exact hstep c' h
    rcases hs : (scan_zone_step cfg env z).1 with e | t
    · rw [scan_zones_go_cons_err cfg env z rest acc calls e hs] at hc
      exact hboth c hc
    · rw [scan_zones_go_cons_ok cfg env z rest acc calls t hs] at hc
      by_cases ht1 : t.1 = true
      · rw [if_pos ht1] at hc
        exact hboth c hc
      · rw [if_neg ht1] at hc
        exact scan_zones_go_calls_no_delete cfg env rest _ _ hboth c hc

/-- `scan_zones` never issues a delete call. -/
theorem scan_zones_calls_no_delete (cfg : AcquireGpu) (env : Env) :
    ∀ c ∈ (scan_zones cfg env).2, isDeleteCall c = false := by
  intro c hc
  unfold scan_zones at hc
  rcases hE : env.listZonesError with _ | e <;> rw [hE] at hc
  · exact scan_zones_go_calls_no_delete cfg env env.zones [] [ApiCall.listZones]
      (by intro c2 hc2; simp at hc2; subst hc2; rfl) c hc
  · simp at hc
    subst hc
    rfl

/-- Trace shape of a scan that returned: a prefix of non-allocating zones,
then the allocating zone, and nothing further. -/
theorem scan_zones_returned_shape (cfg : AcquireGpu) (env : Env) (tr : List ZoneResult)
    (h : (scan_zones cfg env).1 = .returned tr) :
    ∃ pre zl post, env.zones = pre ++ zl :: post ∧
      (∀ z ∈ pre, zoneAlloc cfg env z = false) ∧ zoneAlloc cfg env zl = true ∧
      tr = pre.map (zoneRecord cfg env) ++ [zoneRecord cfg env zl] := by
  unfold scan_zones at h
  rcases hE : env.listZonesError with _ | e <;> rw [hE] at h
  · obtain ⟨pre, zl, post, h1, h2, h3, h4⟩ :=
      scan_zones_go_returned cfg env env.zones [] [ApiCall.listZones] tr (by simp) h
    exact ⟨pre, zl, post, h1, h2, h3, by simpa using h4⟩
  · simp at h

/-- The success partition of a returned trace is exactly the one record of
the allocating zone. -/
theorem returned_trace_filter (cfg : AcquireGpu) (env : Env) (pre : List String)
    (zl : String)
    (h2 : ∀ z ∈ pre, zoneAlloc cfg env z = false)
    (h3 : zoneAlloc cfg env zl = true) :
    (pre.map (zoneRecord cfg env) ++ [zoneRecord cfg env zl]).filter
      (fun vm => vm.gpu_allocated) = [zoneRecord cfg env zl] := by
  rw [List.filter_append]
  have hpre : (pre.map (zoneRecord cfg env)).filter (fun vm => vm.gpu_allocated) = [] := by
    rw [List.filter_eq_nil_iff]
    intro a ha
    obtain ⟨z, hz, rfl⟩ := List.mem_map.mp ha
    simp [zoneRecord_gpu_allocated, h2 z hz]
  rw [hpre]
  simp [List.filter, zoneRecord_gpu_allocated, h3]

/-- Calls of the machine lookup are never create, start or instance reads. -/
theorem attempt_probe_no_mutating (cfg : AcquireGpu) (env : Env) (z : String)
    (gav : Bool) :
    ∀ c ∈ (attempt_machine_probe cfg env z gav).2,
      (∀ zz n m, c ≠ ApiCall.createVm zz n m) ∧
      (∀ zz n, c ≠ ApiCall.startVm zz n) ∧
      (∀ zz n, c ≠ ApiCall.getInstanceCall zz n) := by
  intro c hc
  rcases attempt_machine_probe_calls cfg env z gav c hc with ⟨mt, rfl⟩ | rfl <;>
    refine ⟨fun zz n m h => ?_, fun zz n h => ?_, fun zz n h => ?_⟩ <;> cases h

/-- A started instance keeps its requested name. -/
theorem startedName_eq_some (env : Env) (z n s : String)
    (h : startedName env z n = some s) : s = n := by
  unfold startedName at h
  rcases hr : env.startResult z n with e | u <;> rw [hr] at h <;> simp at h
  exact h.symm

/-- C6: for every zone and candidate shape list, `is_machine_available`
returns the first shape in list order that exists in the zone and has the
region's CPUS quota with usage strictly below its limit (per-shape probing
errors merely disqualify that shape), and returns none when no candidate
qualifies. -/
theorem claim_C6 (cfg : AcquireGpu) (env : Env) (zone_name : String) :
    (is_machine_available cfg env zone_name).1 =
      cfg.machine_types.find? (machineAvailableSpec cfg env zone_name) ∧
    ((∀ mt ∈ cfg.machine_types, machineAvailableSpec cfg env zone_name mt = false) →
      (is_machine_available cfg env zone_name).1 = none) := by
  refine ⟨is_machine_available_go_fst cfg env zone_name cfg.machine_types, ?_⟩
  intro h
  rw [is_machine_available] at *
  rw [is_machine_available_go_fst cfg env zone_name cfg.machine_types]
  rw [List.find?_eq_none]
  intro x hx
  simp [h x hx]

/-- Witness for C6 at a concrete zone where no candidate shape qualifies. -/
theorem claim_C6_witness :
    (∀ mt ∈ cfg0.machine_types, machineAvailableSpec cfg0 envOne "r1-a" mt = false) ∧
    (is_machine_available cfg0 envOne "r1-a").1 = none :=
  ⟨by decide, (claim_C6 cfg0 envOne "r1-a").2 (by decide)⟩

/-- C5: `is_gpu_available` fails closed: a catalog listing without the
configured accelerator yields false and no region quota lookup is issued; a
quota snapshot without the configured metric yields false; and an error from
the catalog listing or the quota fetch yields false instead of propagating. -/
theorem claim_C5 :
    (∀ (cfg : AcquireGpu) (env : Env) (z : String) (gpus : List String),
       env.accel z = .ok gpus → cfg.gpu_type ∉ gpus →
       (is_gpu_available cfg env z).1 = false ∧
       ∀ r, ApiCall.getRegion r ∉ (is_gpu_available cfg env z).2) ∧
    (∀ (cfg : AcquireGpu) (env : Env) (z : String) (gpus : List String)
       (qs : List Quota),
       env.accel z = .ok gpus → env.quotas (regionOfZone z) = .ok qs →
       (∀ q ∈ qs, q.metric ≠ cfg.gpu_quota_name) →
       (is_gpu_available cfg env z).1 = false) ∧
    (∀ (cfg : AcquireGpu) (env : Env) (z : String) (e : String),
       env.accel z = .error e → (is_gpu_available cfg env z).1 = false) ∧
    (∀ (cfg : AcquireGpu) (env : Env) (z : String) (e : String),
       env.quotas (regionOfZone z) = .error e →
       (is_gpu_available cfg env z).1 = false) := by
  refine ⟨?_, ?_, ?_, ?_⟩
  · intro cfg env z gpus hak hng
    have hany : (gpus.any (fun gpu => gpu == cfg.gpu_type)) = false := by
      rw [List.any_eq_false]
      intro g hg hbeq
      exact hng (beq_iff_eq.mp hbeq ▸ hg)
    constructor
    · simp [is_gpu_available, hak, hany]
    · intro r hr
      simp [is_gpu_available, hak, hany] at hr
  · intro cfg env z gpus qs hak hq hmet
    have hfind : qs.find? (fun quota => quota.metric == cfg.gpu_quota_name) = none := by
      rw [List.find?_eq_none]
      intro q hq2
      simp [hmet q hq2]
    unfold is_gpu_available
    rw [hak]
    by_cases hany : (gpus.any (fun gpu => gpu == cfg.gpu_type)) = true
    · simp [hany, hq, hfind]
    · simp [hany]
  · intro cfg env z e h
    simp [is_gpu_available, h]
  · intro cfg env z e h
    unfold is_gpu_available
    rcases hak : env.accel z with e2 | gpus
    · rfl
    · by_cases hany : (gpus.any (fun gpu => gpu == cfg.gpu_type)) = true
      · simp [hany, h]
      · simp [hany]

/-- Witness for C5 at a concrete zone whose catalog lists no matching GPU. -/
theorem claim_C5_witness :
    envOne.accel "r1-a" = Except.ok ["tpu-v5"] ∧
    cfg0.gpu_type ∉ ["tpu-v5"] ∧
    (is_gpu_available cfg0 envOne "r1-a").1 = false ∧
    ApiCall.getRegion "r1" ∉ (is_gpu_available cfg0 envOne "r1-a").2 := by
  have h := claim_C5.1 cfg0 envOne "r1-a" ["tpu-v5"] rfl (by decide)
  exact ⟨rfl, by decide, h.1, h.2 "r1"⟩

/-- C8: when the machine probe found a shape, the outcome recorded on any
attempt record the attempt produces is the first segment of the creation
exception's message before the first colon, and SUCCESS when creation
completed without exception.  (When the later unguarded instance re-read
raises, the attempt produces no record at all.) -/
theorem claim_C8 (cfg : AcquireGpu) (env : Env) (region zone_name : String)
    (gav : Bool) (m : String) (mcalls : List ApiCall)
    (hp : attempt_machine_probe cfg env zone_name gav = (some m, mcalls)) :
    (∀ msg b rec, env.createResult zone_name (instName cfg env) m = .error msg →
      (attempt_gpu_allocation cfg env region zone_name gav).1 = .ok (b, rec) →
      rec.gpu_reason = String.mk (msg.data.takeWhile (fun c => c != ':'))) ∧
    (∀ b rec, env.createResult zone_name (instName cfg env) m = .ok () →
      (attempt_gpu_allocation cfg env region zone_name gav).1 = .ok (b, rec) →
      rec.gpu_reason = "SUCCESS") := by
  constructor
  · intro msg b rec hmsg hok
    have hcs : createStatus env zone_name (instName cfg env) m = firstColonSegment msg := by
      simp [createStatus, hmsg]
    by_cases hsc : createStatus env zone_name (instName cfg env) m = "SUCCESS"
    · rcases hf : (get_vm_external_ip cfg env cfg.project_id zone_name
          (instName cfg env)).1 with e | ip
      · rw [attempt_eq_crash cfg env region zone_name gav m mcalls e hp hsc hf] at hok
        simp at hok
      · rw [attempt_eq_success cfg env region zone_name gav m mcalls ip hp hsc hf] at hok
        simp only [Except.ok.injEq, Prod.mk.injEq] at hok
        obtain ⟨hb, hr⟩ := hok
        subst hr
        show "SUCCESS" = _
        rw [← hsc, hcs, firstColonSegment_eq_takeWhile]
    · rw [attempt_eq_fail cfg env region zone_name gav m mcalls hp hsc] at hok
      simp only [Except.ok.injEq, Prod.mk.injEq] at hok
      obtain ⟨hb, hr⟩ := hok
      subst hr
      show createStatus env zone_name (instName cfg env) m = _
      rw [hcs, firstColonSegment_eq_takeWhile]
  · intro b rec hcr hok
    have hsc : createStatus env zone_name (instName cfg env) m = "SUCCESS" := by
      simp [createStatus, hcr]
    rcases hf : (get_vm_external_ip cfg env cfg.project_id zone_name
        (instName cfg env)).1 with e | ip
    · rw [attempt_eq_crash cfg env region zone_name gav m mcalls e hp hsc hf] at hok
      simp at hok
    · rw [attempt_eq_success cfg env region zone_name gav m mcalls ip hp hsc hf] at hok
      simp only [Except.ok.injEq, Prod.mk.injEq] at hok
      obtain ⟨hb, hr⟩ := hok
      subst hr
      rfl

/-- Witness for C8 at a concrete creation failure whose message carries a
colon-separated reason. -/
theorem claim_C8_witness :
    attempt_machine_probe cfg0 envCreateFail "r2-a" true =
      (some "n1-standard-4",
       [ApiCall.getMachine "r2-a" "n1-standard-4", ApiCall.getRegion "r2"]) ∧
    envCreateFail.createResult "r2-a" (instName cfg0 envCreateFail) "n1-standard-4" =
      .error "QUOTA_EXCEEDED: too many requests" ∧
    (attempt_gpu_allocation cfg0 envCreateFail "r2" "r2-a" true).1 =
      .ok (false, zrCreateFail) ∧
    zrCreateFail.gpu_reason =
      String.mk ("QUOTA_EXCEEDED: too many requests".data.takeWhile (fun c => c != ':')) :=
  ⟨by decide, rfl, rfl,
   (claim_C8 cfg0 envCreateFail "r2" "r2-a" true "n1-standard-4"
      [ApiCall.getMachine "r2-a" "n1-standard-4", ApiCall.getRegion "r2"]
      (by decide)).1 "QUOTA_EXCEEDED: too many requests" false zrCreateFail rfl rfl⟩

/-- C2: for every scan over a zone list in which exactly one zone qualifies,
the returned trace contains exactly one allocated record, that record is the
qualifying zone's, it is the last record of the trace, and no zone after it
is probed (the trace covers exactly the prefix of the zone list up to and
including the qualifying zone). -/
theorem claim_C2 (cfg : AcquireGpu) (env : Env) (z : String)
    (hz : z ∈ env.zones) (hq : zoneQualifies cfg env z = true)
    (huniq : ∀ z' ∈ env.zones, zoneQualifies cfg env z' = true → z' = z)
    (tr : List ZoneResult)
    (hret : (scan_zones cfg env).1 = .returned tr) :
    tr.countP (fun r => r.gpu_allocated) = 1 ∧
    (∃ pre post, env.zones = pre ++ z :: post ∧
      tr.map (fun r => r.zone) = pre ++ [z]) ∧
    ∃ r, tr.getLast? = some r ∧ r.zone = z ∧ r.gpu_allocated = true := by
  obtain ⟨pre, zl, post, h1, h2, h3, h4⟩ := scan_zones_returned_shape cfg env tr hret
  have hzl : zl = z :=
    huniq zl (by rw [h1]; exact List.mem_append_right _ (List.mem_cons_self _ _))
      (zoneAlloc_qualifies cfg env zl h3)
  subst hzl
  refine ⟨?_, ⟨pre, post, h1, ?_⟩, ?_⟩
  · rw [h4, List.countP_append]
    have hz0 : (pre.map (zoneRecord cfg env)).countP (fun r => r.gpu_allocated) = 0 := by
      rw [List.countP_eq_zero]
      intro a ha
      obtain ⟨z', hz', rfl⟩ := List.mem_map.mp ha
      simp [zoneRecord_gpu_allocated, h2 z' hz']
    rw [hz0]
    simp [List.countP, List.countP.go, zoneRecord_gpu_allocated, h3]
  · rw [h4, List.map_append]
    have hmap : ∀ l : List String,
        (l.map (zoneRecord cfg env)).map (fun r => r.zone) = l := by
      intro l
      induction l with
      | nil => rfl
      | cons a t ih => simp [ih, zoneRecord_zone]
    rw [hmap pre]
    simp [zoneRecord_zone]
  · refine ⟨zoneRecord cfg env zl, ?_, zoneRecord_zone cfg env zl, ?_⟩
    · rw [h4]
      exact List.getLast?_concat _
    · rw [zoneRecord_gpu_allocated]
      exact h3

/-- Witness for C2 on the concrete two-zone environment whose only
qualifying zone is the second. -/
theorem claim_C2_witness :
    "r2-a" ∈ envOne.zones ∧ zoneQualifies cfg0 envOne "r2-a" = true ∧
    (∀ z' ∈ envOne.zones, zoneQualifies cfg0 envOne z' = true → z' = "r2-a") ∧
    (scan_zones cfg0 envOne).1 = .returned [zrUnavailable, zrSuccess] ∧
    [zrUnavailable, zrSuccess].countP (fun r => r.gpu_allocated) = 1 :=
  ⟨by decide, by decide, by decide, by decide,
   (claim_C2 cfg0 envOne "r2-a" (by decide) (by decide) (by decide)
      [zrUnavailable, zrSuccess] (by decide)).1⟩

/-- C10: whenever the scan returns a trace to its caller rather than
terminating the process, that trace contains an allocated record, and the
coordinator therefore takes its success branch: the post-scan
zero-success fatal exit is unreachable. -/
theorem claim_C10 (cfg : AcquireGpu) (env : Env) (tr : List ZoneResult)
    (h : (scan_zones cfg env).1 = .returned tr) :
    tr.any (fun r => r.gpu_allocated) = true ∧
    ∃ calls, allocate_gpus cfg env =
      (.success (tr.filter (fun vm => vm.gpu_allocated)), calls) := by
  obtain ⟨pre, zl, post, h1, h2, h3, h4⟩ := scan_zones_returned_shape cfg env tr h
  have hfilter : tr.filter (fun vm => vm.gpu_allocated) = [zoneRecord cfg env zl] := by
    rw [h4]
    exact returned_trace_filter cfg env pre zl h2 h3
  constructor
  · rw [h4]
    simp [List.any_append, zoneRecord_gpu_allocated, h3]
  · rcases hs : scan_zones cfg env with ⟨sres, scalls⟩
    have hsres : sres = .returned tr := by rw [hs] at h; exact h
    subst hsres
    have hpost : (allocate_gpus_post cfg env tr).1 =
        .success (tr.filter (fun vm => vm.gpu_allocated)) := by
      unfold allocate_gpus_post
      have hne : (tr.filter (fun vm => vm.gpu_allocated)).isEmpty = false := by
        rw [hfilter]
        rfl
      simp [hne]
    refine ⟨scalls ++ (allocate_gpus_post cfg env tr).2, ?_⟩
    unfold allocate_gpus
    rw [hs]
    show ((allocate_gpus_post cfg env tr).1, scalls ++ (allocate_gpus_post cfg env tr).2) = _
    rw [hpost]

/-- Witness for C10 on the concrete environment whose scan returns. -/
theorem claim_C10_witness :
    (scan_zones cfg0 envOne).1 = .returned [zrUnavailable, zrSuccess] ∧
    [zrUnavailable, zrSuccess].any (fun r => r.gpu_allocated) = true ∧
    ∃ calls, allocate_gpus cfg0 envOne =
      (.success ([zrUnavailable, zrSuccess].filter (fun vm => vm.gpu_allocated)), calls) :=
  ⟨by decide,
   (claim_C10 cfg0 envOne [zrUnavailable, zrSuccess] (by decide)).1,
   (claim_C10 cfg0 envOne [zrUnavailable, zrSuccess] (by decide)).2⟩

/-- C9: an instance whose creation succeeded but whose start failed is never
deleted: its attempt record has allocated false, so it is excluded from the
coordinator's surplus-deletion set and no delete call is ever issued for
it. -/
theorem claim_C9 (cfg : AcquireGpu) (env : Env) (r : ZoneResult)
    (hr : r ∈ runTrace cfg env) (hreason : r.gpu_reason = "SUCCESS")
    (halloc : r.gpu_allocated = false) :
    ApiCall.deleteVm r.zone r.instance_name ∉ (allocate_gpus cfg env).2 := by
  intro hmem
  rcases hs : scan_zones cfg env with ⟨sres, scalls⟩
  have hscalls : ∀ c ∈ scalls, isDeleteCall c = false := by
    intro c hc
    exact scan_zones_calls_no_delete cfg env c (by rw [hs]; exact hc)
  cases sres with
  | crashed msg trc =>
    have hmem2 : ApiCall.deleteVm r.zone r.instance_name ∈ scalls := by
      unfold allocate_gpus at hmem
      rw [hs] at hmem
      exact hmem
    have hfd := hscalls _ hmem2
    simp [isDeleteCall] at hfd
  | exited c' tr' =>
    have hmem2 : ApiCall.deleteVm r.zone r.instance_name ∈ scalls := by
      unfold allocate_gpus at hmem
      rw [hs] at hmem
      exact hmem
    have hfd := hscalls _ hmem2
    simp [isDeleteCall] at hfd
  | returned tr' =>
    have hpost2 : (allocate_gpus_post cfg env tr').2 = [] := by
      obtain ⟨pre, zl, post, h1, h2, h3, h4⟩ :=
        scan_zones_returned_shape cfg env tr' (by rw [hs])
      have hfilter : tr'.filter (fun vm => vm.gpu_allocated) = [zoneRecord cfg env zl] := by
        rw [h4]
        exact returned_trace_filter cfg env pre zl h2 h3
      unfold allocate_gpus_post
      simp [hfilter, delete_vm_instances]
    have hmem2 : ApiCall.deleteVm r.zone r.instance_name ∈
        scalls ++ (allocate_gpus_post cfg env tr').2 := by
      unfold allocate_gpus at hmem
      rw [hs] at hmem
      exact hmem
    rw [hpost2, List.append_nil] at hmem2
    have hfd := hscalls _ hmem2
    simp [isDeleteCall] at hfd

/-- Witness for C9: the created-but-unstarted record of the start-failure
environment, for which no delete call is issued. -/
theorem claim_C9_witness :
    zrStartFail ∈ runTrace cfg0 envStartFail ∧
    zrStartFail.gpu_reason = "SUCCESS" ∧ zrStartFail.gpu_allocated = false ∧
    ApiCall.deleteVm zrStartFail.zone zrStartFail.instance_name ∉
      (allocate_gpus cfg0 envStartFail).2 :=
  ⟨by decide, rfl, rfl, claim_C9 cfg0 envStartFail zrStartFail (by decide) rfl rfl⟩

/-- C1 counterexample: on a trace with two allocated records, the coordinator
returns both success records, not exactly one. -/
theorem claim_C1_counterexample :
    1 < (twoSuccessTrace.filter (fun vm => vm.gpu_allocated)).length ∧
    (allocate_gpus_post cfg0 envOne twoSuccessTrace).1 =
      .success [zrSuccessA, zrSuccessB] ∧
    [zrSuccessA, zrSuccessB].length ≠ 1 :=
  ⟨by decide, by decide, by decide⟩

/-- C1 (amended): on a trace with more than one allocated record, the
coordinator issues exactly one delete per non-first success (in trace order)
and returns the full list of success records, whose first element is the
surviving instance. -/
theorem claim_C1_amended (cfg : AcquireGpu) (env : Env) (tr : List ZoneResult)
    (h : 1 < (tr.filter (fun vm => vm.gpu_allocated)).length) :
    (allocate_gpus_post cfg env tr).1 =
      .success (tr.filter (fun vm => vm.gpu_allocated)) ∧
    (allocate_gpus_post cfg env tr).2 =
      ((tr.filter (fun vm => vm.gpu_allocated)).drop 1).map
        (fun vm => ApiCall.deleteVm vm.zone vm.instance_name) := by
  have hne : (tr.filter (fun vm => vm.gpu_allocated)).isEmpty = false := by
    cases hf : tr.filter (fun vm => vm.gpu_allocated) with
    | nil =>
      rw [hf] at h
      simp at h
    | cons a l => rfl
  unfold allocate_gpus_post
  simp [hne, h, delete_vm_instances]

/-- Witness for the amended C1 on the concrete two-success trace. -/
theorem claim_C1_amended_witness :
    1 < (twoSuccessTrace.filter (fun vm => vm.gpu_allocated)).length ∧
    (allocate_gpus_post cfg0 envOne twoSuccessTrace).1 =
      .success (twoSuccessTrace.filter (fun vm => vm.gpu_allocated)) ∧
    (allocate_gpus_post cfg0 envOne twoSuccessTrace).2 =
      ((twoSuccessTrace.filter (fun vm => vm.gpu_allocated)).drop 1).map
        (fun vm => ApiCall.deleteVm vm.zone vm.instance_name) :=
  ⟨by decide, (claim_C1_amended cfg0 envOne twoSuccessTrace (by decide)).1,
   (claim_C1_amended cfg0 envOne twoSuccessTrace (by decide)).2⟩

/-- C4 counterexample: the exhausted-with-zero-successes exit is not the only
fatal stop of the program.  In an environment whose only qualifying zone
provisions successfully but whose unguarded instance re-read raises, the run
crashes with the provider's error before the zone list is exhausted: the
stopping trace is shorter than the zone list and the stop is an uncaught
exception, not the deliberate failure exit. -/
theorem claim_C4_counterexample :
    (allocate_gpus cfg0 envFetchCrash).1 =
      .crashed "503: backend unavailable" [zrUnavailable] ∧
    zoneQualifies cfg0 envFetchCrash "r2-a" = true ∧
    [zrUnavailable].length ≠ envFetchCrash.zones.length :=
  ⟨by decide, by decide, by decide⟩

/-- C4 (amended): when the zone listing succeeds and no zone qualifies, the
scan visits every zone, accumulates a full-length all-false trace, and
terminates the process with exit code 1; and conversely every deliberate
fatal termination of the run carries exit code 1 with a full-length all-false
trace.  (An uncaught provider exception in the zone listing or the instance
re-read is a distinct, non-deliberate fatal stop.) -/
theorem claim_C4_amended :
    (∀ (cfg : AcquireGpu) (env : Env),
       env.listZonesError = none →
       (∀ z ∈ env.zones, zoneQualifies cfg env z = false) →
       ∃ tr, (scan_zones cfg env).1 = .exited 1 tr ∧
         tr.length = env.zones.length ∧ ∀ r ∈ tr, r.gpu_allocated = false) ∧
    (∀ (cfg : AcquireGpu) (env : Env) (c : Nat) (tr : List ZoneResult),
       (allocate_gpus cfg env).1 = .fatal c tr →
       c = 1 ∧ tr.length = env.zones.length ∧ ∀ r ∈ tr, r.gpu_allocated = false) := by
  constructor
  · intro cfg env hE hnq
    have hok : ∀ z ∈ env.zones, zoneOk cfg env z = true :=
      fun z hz => (zone_not_qualifies cfg env z (hnq z hz)).1
    have hall : ∀ z ∈ env.zones, zoneAlloc cfg env z = false :=
      fun z hz => (zone_not_qualifies cfg env z (hnq z hz)).2
    refine ⟨env.zones.map (zoneRecord cfg env), ?_, by simp, ?_⟩
    · have hgo := scan_zones_go_all_false cfg env env.zones [] [ApiCall.listZones]
        hok hall (by simp)
      unfold scan_zones
      rw [hE]
      simpa using hgo
    · intro r hr
      obtain ⟨z, hz, rfl⟩ := List.mem_map.mp hr
      rw [zoneRecord_gpu_allocated]
      exact hall z hz
  · intro cfg env c tr h
    unfold allocate_gpus at h
    rcases hs : scan_zones cfg env with ⟨sres, scalls⟩
    rw [hs] at h
    cases sres with
    | crashed msg trc =>
      have h2 : (RunResult.crashed msg trc : RunResult) = .fatal c tr := h
      simp at h2
    | exited c' tr' =>
      have h2 : (RunResult.fatal c' tr' : RunResult) = .fatal c tr := h
      simp only [RunResult.fatal.injEq] at h2
      obtain ⟨rfl, rfl⟩ := h2
      have hfst : (scan_zones cfg env).1 = .exited c' tr' := by rw [hs]
      unfold scan_zones at hfst
      rcases hE : env.listZonesError with _ | e
      · rw [hE] at hfst
        obtain ⟨h1, h2, h3⟩ := scan_zones_go_exited cfg env env.zones []
          [ApiCall.listZones] c' tr' (by simp) hfst
        refine ⟨h1, by rw [h2]; simp, ?_⟩
        intro r hr
        rw [h2] at hr
        simp only [List.nil_append] at hr
        obtain ⟨z, hz, rfl⟩ := List.mem_map.mp hr
        rw [zoneRecord_gpu_allocated]
        exact h3 z hz
      · rw [hE] at hfst
        simp at hfst
    | returned tr' =>
      exfalso
      have hret : (scan_zones cfg env).1 = .returned tr' := by rw [hs]
      obtain ⟨pre, zl, post, h1, h2, h3, h4⟩ := scan_zones_returned_shape cfg env tr' hret
      have hfilter : tr'.filter (fun vm => vm.gpu_allocated) = [zoneRecord cfg env zl] := by
        rw [h4]
        exact returned_trace_filter cfg env pre zl h2 h3
      have hpost : (allocate_gpus_post cfg env tr').1 =
          .success (tr'.filter (fun vm => vm.gpu_allocated)) := by
        unfold allocate_gpus_post
        have hne : (tr'.filter (fun vm => vm.gpu_allocated)).isEmpty = false := by
          rw [hfilter]
          rfl
        simp [hne]
      have h2 : (allocate_gpus_post cfg env tr').1 = .fatal c tr := h
      rw [hpost] at h2
      simp at h2

/-- Witness for the amended C4 at an environment whose zone listing succeeds
but where no zone carries the configured accelerator. -/
theorem claim_C4_amended_witness :
    envNoGpu.listZonesError = none ∧
    (∀ z ∈ envNoGpu.zones, zoneQualifies cfg0 envNoGpu z = false) ∧
    ∃ tr, (scan_zones cfg0 envNoGpu).1 = .exited 1 tr ∧
      tr.length = envNoGpu.zones.length ∧ ∀ r ∈ tr, r.gpu_allocated = false :=
  ⟨rfl, by decide, claim_C4_amended.1 cfg0 envNoGpu rfl (by decide)⟩

/-- C3 counterexample: on an attempt where creation succeeds but the start
fails, the external-address fetch is still issued, so the fetch is not gated
on a successful start. -/
theorem claim_C3_counterexample :
    (start_vm_instance cfg0 envStartFail "r2-a" (instName cfg0 envStartFail)).1 = none ∧
    (attempt_gpu_allocation cfg0 envStartFail "r2" "r2-a" true).1 =
      .ok (false, zrStartFail) ∧
    ApiCall.getInstanceCall "r2-a" (instName cfg0 envStartFail) ∈
      (attempt_gpu_allocation cfg0 envStartFail "r2" "r2-a" true).2 :=
  ⟨rfl, rfl, by decide⟩

/-- C3 (amended): the attempt orchestrates Create exactly when a shape was
selected, Start exactly when Create's recorded status is SUCCESS, and the
external-address fetch exactly when Start was attempted — regardless of
whether Start succeeded; a none result from Start makes any produced
attempt outcome unallocated, and a produced outcome is allocated exactly
when Start was attempted and returned the instance's name. -/
theorem claim_C3_amended (cfg : AcquireGpu) (env : Env) (region z : String) (gav : Bool) :
    ((∃ mt, ApiCall.createVm z (instName cfg env) mt ∈
        (attempt_gpu_allocation cfg env region z gav).2) ↔
      ((attempt_machine_probe cfg env z gav).1).isSome = true) ∧
    (ApiCall.startVm z (instName cfg env) ∈
        (attempt_gpu_allocation cfg env region z gav).2 ↔
      ∃ mt, (attempt_machine_probe cfg env z gav).1 = some mt ∧
        createStatus env z (instName cfg env) mt = "SUCCESS") ∧
    (ApiCall.getInstanceCall z (instName cfg env) ∈
        (attempt_gpu_allocation cfg env region z gav).2 ↔
      ApiCall.startVm z (instName cfg env) ∈
        (attempt_gpu_allocation cfg env region z gav).2) ∧
    (startedName env z (instName cfg env) = none →
      ∀ b rec, (attempt_gpu_allocation cfg env region z gav).1 = .ok (b, rec) →
        b = false) ∧
    (∀ b rec, (attempt_gpu_allocation cfg env region z gav).1 = .ok (b, rec) →
      (b = true ↔
        (ApiCall.startVm z (instName cfg env) ∈
            (attempt_gpu_allocation cfg env region z gav).2 ∧
         startedName env z (instName cfg env) = some (instName cfg env)))) := by
  rcases hp : attempt_machine_probe cfg env z gav with ⟨mt, mcalls⟩
  have hnc : ∀ zz n m, ApiCall.createVm zz n m ∉ mcalls := fun zz n m hmem =>
    (attempt_probe_no_mutating cfg env z gav _ (by rw [hp]; exact hmem)).1 zz n m rfl
  have hns : ∀ zz n, ApiCall.startVm zz n ∉ mcalls := fun zz n hmem =>
    (attempt_probe_no_mutating cfg env z gav _ (by rw [hp]; exact hmem)).2.1 zz n rfl
  have hni : ∀ zz n, ApiCall.getInstanceCall zz n ∉ mcalls := fun zz n hmem =>
    (attempt_probe_no_mutating cfg env z gav _ (by rw [hp]; exact hmem)).2.2 zz n rfl
  cases mt with
  | none =>
    rw [attempt_eq_none cfg env region z gav mcalls hp]
    simp [hnc, hns, hni]
  | some m =>
    by_cases hsc : createStatus env z (instName cfg env) m = "SUCCESS"
    · rcases hf : (get_vm_external_ip cfg env cfg.project_id z (instName cfg env)).1
          with e | ip
      · rw [attempt_eq_crash cfg env region z gav m mcalls e hp hsc hf]
        simp [create_single_vm, start_vm_instance, get_vm_external_ip, hsc, hnc, hns, hni]
      · rw [attempt_eq_success cfg env region z gav m mcalls ip hp hsc hf]
        refine ⟨?_, ?_, ?_, ?_, ?_⟩
        · simp [create_single_vm, start_vm_instance, get_vm_external_ip]
        · simp [create_single_vm, start_vm_instance, get_vm_external_ip, hsc]
        · simp [create_single_vm, start_vm_instance, get_vm_external_ip]
        · intro h0 b rec heq
          simp only [Except.ok.injEq, Prod.mk.injEq] at heq
          rw [← heq.1, h0]
          rfl
        · intro b rec heq
          simp only [Except.ok.injEq, Prod.mk.injEq] at heq
          rw [← heq.1]
          cases hst : startedName env z (instName cfg env) with
          | none => simp [hst, create_single_vm, start_vm_instance, get_vm_external_ip]
          | some s =>
            have hsn : s = instName cfg env := startedName_eq_some env z (instName cfg env) s hst
            subst hsn
            simp [hst, create_single_vm, start_vm_instance, get_vm_external_ip]
    · rw [attempt_eq_fail cfg env region z gav m mcalls hp hsc]
      refine ⟨?_, ?_, ?_, ?_, ?_⟩
      · simp [create_single_vm]
      · simp [create_single_vm, hns, hsc]
      · simp [create_single_vm, hns, hni]
      · intro h0 b rec heq
        simp only [Except.ok.injEq, Prod.mk.injEq] at heq
        rw [← heq.1]
      · intro b rec heq
        simp only [Except.ok.injEq, Prod.mk.injEq] at heq
        rw [← heq.1]
        simp [create_single_vm, hns]

/-- Witness for the amended C3 at the concrete start-failure environment: the
start returned none and the produced attempt outcome is unallocated. -/
theorem claim_C3_amended_witness :
    startedName envStartFail "r2-a" (instName cfg0 envStartFail) = none ∧
    (attempt_gpu_allocation cfg0 envStartFail "r2" "r2-a" true).1 =
      .ok (false, zrStartFail) ∧
    false = false :=
  ⟨rfl, rfl,
   (claim_C3_amended cfg0 envStartFail "r2" "r2-a" true).2.2.2.1 rfl false zrStartFail rfl⟩

/-- C7 counterexample: the created instance's name is derived from the local
clock, not UTC — in an environment whose local clock differs from UTC the
issued creation call and the recorded name carry the local-time suffix and
differ from the base-name-plus-UTC-timestamp form. -/
theorem claim_C7_counterexample :
    ApiCall.createVm "r2-a" (cfg0.vm_name ++ "-" ++ envOne.now_local) "n1-standard-4" ∈
      (attempt_gpu_allocation cfg0 envOne "r2" "r2-a" true).2 ∧
    (attempt_gpu_allocation cfg0 envOne "r2" "r2-a" true).1 = .ok (true, zrSuccess) ∧
    zrSuccess.instance_name = some (cfg0.vm_name ++ "-" ++ envOne.now_local) ∧
    zrSuccess.instance_name ≠ some (cfg0.vm_name ++ "-" ++ envOne.now_utc) :=
  ⟨by decide, rfl, by decide, by decide⟩

/-- C7 (amended): whenever a shape was selected, the creation call is issued
for the name formed of the configured base name, a hyphen, and the
local-clock timestamp, every produced attempt record carries exactly that
name, and the naming scheme is injective in the timestamp: different
timestamps give different instance names. -/
theorem claim_C7_amended (cfg : AcquireGpu) (env : Env) (region z : String) (gav : Bool)
    (mt : String) (hmt : (attempt_machine_probe cfg env z gav).1 = some mt) :
    ApiCall.createVm z (cfg.vm_name ++ "-" ++ env.now_local) mt ∈
      (attempt_gpu_allocation cfg env region z gav).2 ∧
    (∀ b rec, (attempt_gpu_allocation cfg env region z gav).1 = .ok (b, rec) →
      rec.instance_name = some (cfg.vm_name ++ "-" ++ env.now_local)) ∧
    (∀ t1 t2 : String, t1 ≠ t2 →
      cfg.vm_name ++ "-" ++ t1 ≠ cfg.vm_name ++ "-" ++ t2) := by
  rcases hpair : attempt_machine_probe cfg env z gav with ⟨mt', mcalls⟩
  have hmt' : mt' = some mt := by rw [hpair] at hmt; exact hmt
  subst hmt'
  refine ⟨?_, ?_, ?_⟩
  · by_cases hsc : createStatus env z (instName cfg env) mt = "SUCCESS"
    · rcases hf : (get_vm_external_ip cfg env cfg.project_id z (instName cfg env)).1
          with e | ip
      · rw [attempt_eq_crash cfg env region z gav mt mcalls e hpair hsc hf]
        simp [create_single_vm, instName]
      · rw [attempt_eq_success cfg env region z gav mt mcalls ip hpair hsc hf]
        simp [create_single_vm, instName]
    · rw [attempt_eq_fail cfg env region z gav mt mcalls hpair hsc]
      simp [create_single_vm, instName]
  · intro b rec heq
    by_cases hsc : createStatus env z (instName cfg env) mt = "SUCCESS"
    · rcases hf : (get_vm_external_ip cfg env cfg.project_id z (instName cfg env)).1
          with e | ip
      · rw [attempt_eq_crash cfg env region z gav mt mcalls e hpair hsc hf] at heq
        simp at heq
      · rw [attempt_eq_success cfg env region z gav mt mcalls ip hpair hsc hf] at heq
        simp only [Except.ok.injEq, Prod.mk.injEq] at heq
        rw [← heq.2]
        rfl
    · rw [attempt_eq_fail cfg env region z gav mt mcalls hpair hsc] at heq
      simp only [Except.ok.injEq, Prod.mk.injEq] at heq
      rw [← heq.2]
      rfl
  · intro t1 t2 hne heq
    apply hne
    have h1 := congrArg String.data heq
    simp only [String.data_append] at h1
    have h2 := List.append_cancel_left h1
    exact congrArg String.mk h2

/-- Witness for the amended C7 at the concrete environment whose local clock
is eight hours behind UTC. -/
theorem claim_C7_amended_witness :
    (attempt_machine_probe cfg0 envOne "r2-a" true).1 = some "n1-standard-4" ∧
    ApiCall.createVm "r2-a" (cfg0.vm_name ++ "-" ++ envOne.now_local) "n1-standard-4" ∈
      (attempt_gpu_allocation cfg0 envOne "r2" "r2-a" true).2 ∧
    (attempt_gpu_allocation cfg0 envOne "r2" "r2-a" true).1 = .ok (true, zrSuccess) ∧
    zrSuccess.instance_name = some (cfg0.vm_name ++ "-" ++ envOne.now_local) ∧
    ("2026-03-01-00-00-00" : String) ≠ "2026-03-01-08-00-00" ∧
    cfg0.vm_name ++ "-" ++ "2026-03-01-00-00-00" ≠
      cfg0.vm_name ++ "-" ++ "2026-03-01-08-00-00" := by
  have h := claim_C7_amended cfg0 envOne "r2" "r2-a" true "n1-standard-4" (by decide)
  exact ⟨by decide, h.1, rfl, h.2.1 true zrSuccess rfl, by decide,
    h.2.2 "2026-03-01-00-00-00" "2026-03-01-08-00-00" (by decide)⟩
